import Mathlib

/-!
Verification of the forecasting subsystem of the financial dashboard
(source file `prediction_model.py`, entry point `predict_future_transactions`,
helpers `prepare_data`, `train_model`, `make_predictions`).

Embedding conventions:
* A pandas row is a `Txn` record: `date` is the calendar date as an integer
  day number (pandas timestamps subtract to whole-day timedeltas here),
  `category` the free-text category column, `amount` the signed
  `Transaction Amount` column with floats modelled as exact rationals, and
  `days_since_start` the derived column, `none` while the column is absent.
* `prepare_data` assigns columns on the caller's dataframe in place
  (`df['date'] = ...`, `df['days_since_start'] = ...`); the returned list is
  that mutated frame, and `predict_future_transactions` returns it as the
  first component of its result so the caller-visible effect is explicit.
  `pd.to_datetime` on the already-parsed date column is the identity here.
* `sklearn.train_test_split(..., test_size=0.2, random_state=42)` draws a
  permutation of the row indices from the seeded generator, takes the first
  `ceil(0.2 * n)` indices as the test set and the rest as the training set,
  and raises `ValueError` when either part would be empty.  The seed-42
  permutation stream is opaque library state, so it enters the embedding as
  an explicit argument `rng : Nat → List Nat` giving the shuffled index list
  for each length; theorems quantify over it or instantiate it with concrete
  permutations that exhaust the possibilities at the inputs used.
* `LinearRegression().fit` on a single feature is ordinary least squares:
  with centred data of nonzero variance it yields the classic slope
  `(n*Σxy - Σx*Σy) / (n*Σx² - (Σx)²)` and intercept `mean y - slope * mean x`;
  with zero variance in the feature the minimum-norm least-squares solution
  is slope 0 and intercept `mean y`.
* `.error PyErr.valueError` stands for the raw `ValueError` escaping from
  `train_test_split`.
-/

/-- One row of the transaction table: parsed date (integer day number),
category label, signed amount, and the derived `days_since_start` column
(`none` while absent). -/
structure Txn where
  date : Int
  category : String
  amount : ℚ
  days_since_start : Option Int
deriving DecidableEq

/-- One row of a forecast frame produced by `make_predictions`: future date,
the day index fed to the model, and the predicted amount. -/
structure FRow where
  date : Int
  days_since_start : Int
  prediction : ℚ
deriving DecidableEq

/-- The unchecked library error escaping the reference code: the `ValueError`
raised by `sklearn.train_test_split` when a split part would be empty. -/
inductive PyErr where
  | valueError
deriving DecidableEq

deriving instance DecidableEq for Except

/-- A fitted `LinearRegression` over the single feature `days_since_start`. -/
structure Model where
  coef : ℚ
  intercept : ℚ
deriving DecidableEq

/-- Minimum of a date column, as `Series.min()` computes it; 0 for the empty
column (pandas gives NaT there, a path the claims never reach). -/
def minD (l : List Int) : Int := l.min?.getD 0

/-- Maximum of a date column, as `Series.max()`; 0 for the empty column. -/
def maxD (l : List Int) : Int := l.max?.getD 0

/-- Source `prepare_data(df)`: re-assigns the parsed date column (identity
here) and sets `days_since_start = (date - date.min()).dt.days` on the
caller's frame in place; the result is the mutated frame. -/
def prepare_data (df : List Txn) : List Txn :=
  df.map fun r => { r with days_since_start := some (r.date - minD (df.map Txn.date)) }

/-- Number of held-out test rows: `ceil(0.2 * n)` as `train_test_split`
computes it. -/
def test_count (n : Nat) : Nat := (n + 4) / 5

/-- The training rows `train_test_split` hands to `model.fit`: the permuted
index list minus its first `test_count` entries, looked up in the frame. -/
def train_rows (rng : Nat → List Nat) (df : List Txn) : List Txn :=
  ((rng df.length).drop (test_count df.length)).filterMap fun i => df.get? i

/-- The feature value of a row: its `days_since_start` column as a number. -/
def dssQ (r : Txn) : ℚ := ((r.days_since_start.getD 0 : Int) : ℚ)

/-- Ordinary least squares for `ys ≈ coef * xs + intercept`, as
`LinearRegression().fit` computes it (minimum-norm solution, slope 0 and
mean intercept, when the feature has zero variance). -/
def fit (xs ys : List ℚ) : Model :=
  let n : ℚ := xs.length
  let sx := xs.sum
  let sy := ys.sum
  let sxx := (xs.map fun x => x * x).sum
  let sxy := (List.zipWith (fun x y => x * y) xs ys).sum
  if n * sxx - sx * sx = 0 then
    { coef := 0, intercept := if n = 0 then 0 else sy / n }
  else
    { coef := (n * sxy - sx * sy) / (n * sxx - sx * sx),
      intercept := (sy - (n * sxy - sx * sy) / (n * sxx - sx * sx) * sx) / n }

/-- Source `train_model(df, target)`: split off 20% of the rows with the
seeded shuffle (raising `ValueError` when a part would be empty, the
`n_samples=1` case) and fit the regression on the remaining rows.  Both call
sites pass the `Transaction Amount` column as `target`. -/
def train_model (rng : Nat → List Nat) (df : List Txn) (target : Txn → ℚ) :
    Except PyErr Model :=
  if df.length - test_count df.length = 0 ∨ test_count df.length = 0 then
    .error .valueError
  else
    .ok (fit ((train_rows rng df).map dssQ) ((train_rows rng df).map target))

/-- Source `make_predictions(model, df, days_to_predict=30)`: future dates
are the `days_to_predict` consecutive days after `df['date'].max()`, the day
index of each is counted from `df['date'].min()` — both over the frame passed
in, which at the call sites is a subseries — and the prediction is the fitted
line at that index. -/
def make_predictions (model : Model) (df : List Txn) (days_to_predict : Nat := 30) :
    List FRow :=
  (List.range days_to_predict).map fun (i : Nat) =>
    { date := maxD (df.map Txn.date) + 1 + (i : Int)
      days_since_start := maxD (df.map Txn.date) + 1 + (i : Int) - minD (df.map Txn.date)
      prediction := model.coef *
        ((maxD (df.map Txn.date) + 1 + (i : Int) - minD (df.map Txn.date) : Int) : ℚ) +
        model.intercept }

/-- Source `income_df = df[df['Transaction Amount'] > 0]` computed on the
prepared frame. -/
def incomeOf (df : List Txn) : List Txn :=
  (prepare_data df).filter fun r => decide (0 < r.amount)

/-- Source `expenditure_df = df[df['Transaction Amount'] < 0].copy()` with
`expenditure_df['Transaction Amount'] = expenditure_df['Transaction Amount'].abs()`,
computed on the prepared frame; the `.copy()` means the sign flip happens on
a fresh frame. -/
def expenditureOf (df : List Txn) : List Txn :=
  ((prepare_data df).filter fun r => decide (r.amount < 0)).map fun r =>
    { r with amount := |r.amount| }

/-- Source `predict_future_transactions(df)`: prepare the frame (mutating the
caller's dataframe, returned as the first component), partition it, train the
income model then the expenditure model (so an income error surfaces first),
and project each subseries 30 days.  An uncaught library error aborts the
whole call before any forecast is returned. -/
def predict_future_transactions (rng : Nat → List Nat) (df : List Txn) :
    Except PyErr (List Txn × List FRow × List FRow) :=
  match train_model rng (incomeOf df) (fun r => r.amount),
        train_model rng (expenditureOf df) (fun r => r.amount) with
  | .error e, _ => .error e
  | .ok _, .error e => .error e
  | .ok income_model, .ok expenditure_model =>
    .ok (prepare_data df, make_predictions income_model (incomeOf df),
      make_predictions expenditure_model (expenditureOf df))

/-- Whether an `Except` value is a success. -/
def exceptOk {ε α : Type} : Except ε α → Bool
  | .ok _ => true
  | .error _ => false

/-- The caller's dataframe as `predict_future_transactions` leaves it
(meaningful on success; `[]` on the error paths, where the claims do not
look at it). -/
def okFrame (rng : Nat → List Nat) (df : List Txn) : List Txn :=
  match predict_future_transactions rng df with
  | .ok (st, _, _) => st
  | .error _ => []

/-- The returned income forecast (on success). -/
def okIncome (rng : Nat → List Nat) (df : List Txn) : List FRow :=
  match predict_future_transactions rng df with
  | .ok (_, inc, _) => inc
  | .error _ => []

/-- The returned expenditure forecast (on success). -/
def okExpenditure (rng : Nat → List Nat) (df : List Txn) : List FRow :=
  match predict_future_transactions rng df with
  | .ok (_, _, ex) => ex
  | .error _ => []

/-- The slope of a fitted model, 0 when the fit errored. -/
def coefOf : Except PyErr Model → ℚ
  | .ok m => m.coef
  | .error _ => 0

/-- The record fields loaded from the input file: date, category, amount. -/
def stripT (r : Txn) : Int × String × ℚ := (r.date, r.category, r.amount)

/-- The identity permutation, one possible value of the seed-42 shuffle. -/
def rngId (n : Nat) : List Nat := List.range n

/-- The reversing permutation, the other possible shuffle of two rows. -/
def rngRev (n : Nat) : List Nat := (List.range n).reverse

/-- Sample series: two income rows (days 0, 1) and two expenditure rows
(days 0, 5); the latest income date and the latest overall date differ. -/
def dfA : List Txn :=
  [⟨0, "a", 50, none⟩, ⟨1, "b", 60, none⟩, ⟨0, "c", -30, none⟩, ⟨5, "d", -40, none⟩]

/-- Sample series: income on days 3 and 4, expenditure on days 0 and 1; the
income subseries starts after the global epoch. -/
def dfB : List Txn :=
  [⟨3, "a", 50, none⟩, ⟨4, "b", 60, none⟩, ⟨0, "c", -30, none⟩, ⟨1, "d", -40, none⟩]

/-- Sample series with exactly one income record and two expenditure
records. -/
def dfSingleIncome : List Txn :=
  [⟨0, "a", 50, none⟩, ⟨0, "b", -30, none⟩, ⟨1, "c", -40, none⟩]

/-- Sample series whose earliest record is an expenditure and whose income
records all come strictly later. -/
def dfEpoch : List Txn :=
  [⟨0, "e", -30, none⟩, ⟨2, "i", 50, none⟩, ⟨3, "i", 60, none⟩]

/-- Sample series on the exact line `amount = 2 * days_since_start + 10`. -/
def dfLinear : List Txn :=
  [⟨0, "s", 10, none⟩, ⟨1, "s", 12, none⟩, ⟨2, "s", 14, none⟩,
   ⟨3, "s", 16, none⟩, ⟨4, "s", 18, none⟩]

/-- Every row of a prepared frame carries the day index counted from the
frame's own minimum date (the global epoch of the frame prepared). -/
theorem prepare_data_dss (df : List Txn) :
    ∀ r ∈ prepare_data df, r.days_since_start = some (r.date - minD (df.map Txn.date)) := by
  intro r hr
  simp only [prepare_data, List.mem_map] at hr
  obtain ⟨s, _, rfl⟩ := hr
  rfl

/-- Preparing a frame does not change the loaded columns. -/
theorem prepare_data_strip (df : List Txn) :
    (prepare_data df).map stripT = df.map stripT := by
  simp only [prepare_data, List.map_map]
  exact congrArg df.map (funext fun r => rfl)

/-- Preparing a frame does not change the date column. -/
theorem prepare_data_dates (df : List Txn) :
    (prepare_data df).map Txn.date = df.map Txn.date := by
  simp only [prepare_data, List.map_map]
  exact congrArg df.map (funext fun r => rfl)

/-- Preparing a frame twice equals preparing it once: dates are unchanged, so
the recomputed day-index column is the same. -/
theorem prepare_data_idem (df : List Txn) :
    prepare_data (prepare_data df) = prepare_data df := by
  conv_lhs => rw [prepare_data]
  rw [prepare_data_dates df]
  simp only [prepare_data, List.map_map]
  exact congrArg df.map (funext fun r => rfl)

/-- Filtering a mapped list is mapping the filtered list when the predicate
is read through the map. -/
theorem filter_map_swap {α β : Type} (f : α → β) (p : β → Bool) (l : List α) :
    (l.map f).filter p = (l.filter fun a => p (f a)).map f := by
  induction l with
  | nil => rfl
  | cons a t ih => by_cases h : p (f a) <;> simp [List.filter_cons, h, ih]

/-- The column minimum bounds every member. -/
theorem minD_le_of_mem {l : List Int} {a : Int} (h : a ∈ l) : minD l ≤ a := by
  unfold minD
  cases hm : l.min? with
  | none =>
    rw [List.min?_eq_none_iff] at hm
    subst hm
    cases h
  | some m =>
    have hall := (List.le_min?_iff (fun _ _ _ => le_min_iff) hm).mp (le_refl m)
    simpa using hall a h

/-- A projection frame has exactly `days_to_predict` rows. -/
theorem make_predictions_length (m : Model) (df : List Txn) (k : Nat) :
    (make_predictions m df k).length = k := by
  rw [make_predictions, List.length_map, List.length_range]

/-- The `i`-th row of a projection frame, in closed form: the date is the
subseries maximum plus `1 + i`, the day index counts from the subseries
minimum, and the prediction is the fitted line there. -/
theorem make_predictions_getD (m : Model) (df : List Txn) (k i : Nat) (h : i < k) (d : FRow) :
    (make_predictions m df k).getD i d =
      { date := maxD (df.map Txn.date) + 1 + (i : Int)
        days_since_start := maxD (df.map Txn.date) + 1 + (i : Int) - minD (df.map Txn.date)
        prediction := m.coef *
          ((maxD (df.map Txn.date) + 1 + (i : Int) - minD (df.map Txn.date) : Int) : ℚ) +
          m.intercept } := by
  rw [make_predictions, List.getD_eq_getElem?_getD, List.getElem?_map, List.getElem?_range h]
  rfl

/-- Inversion of a successful pipeline run: both fits succeeded, the caller's
frame was the prepared one, and each forecast is the projection of its own
subseries under its own fitted model. -/
theorem predict_ok_parts (rng : Nat → List Nat) (df : List Txn)
    (h : exceptOk (predict_future_transactions rng df) = true) :
    ∃ im em,
      train_model rng (incomeOf df) (fun r => r.amount) = .ok im ∧
      train_model rng (expenditureOf df) (fun r => r.amount) = .ok em ∧
      okFrame rng df = prepare_data df ∧
      okIncome rng df = make_predictions im (incomeOf df) ∧
      okExpenditure rng df = make_predictions em (expenditureOf df) := by
  cases h1 : train_model rng (incomeOf df) (fun r => r.amount) with
  | error e =>
    have hpred : predict_future_transactions rng df = .error e := by
      unfold predict_future_transactions
      rw [h1]
    rw [hpred] at h
    exact absurd h (by simp [exceptOk])
  | ok im =>
    cases h2 : train_model rng (expenditureOf df) (fun r => r.amount) with
    | error e =>
      have hpred : predict_future_transactions rng df = .error e := by
        unfold predict_future_transactions
        rw [h1, h2]
      rw [hpred] at h
      exact absurd h (by simp [exceptOk])
    | ok em =>
      have hpred : predict_future_transactions rng df =
          .ok (prepare_data df, make_predictions im (incomeOf df),
            make_predictions em (expenditureOf df)) := by
        unfold predict_future_transactions
        rw [h1, h2]
      exact ⟨im, em, rfl, rfl,
        by unfold okFrame; rw [hpred],
        by unfold okIncome; rw [hpred],
        by unfold okExpenditure; rw [hpred]⟩

/-- Claim C1, counterexample: at `dfA` (latest overall date 5 in the
expenditure rows, latest income date 1) the income forecast starts on day 2,
not on day 6 = latest overall date + 1, and the two sequences do not share
their projected dates — under either possible shuffle of a two-row frame, so
in particular under the seed-42 one. -/
theorem C1_counterexample :
    exceptOk (predict_future_transactions rngId dfA) = true ∧
    exceptOk (predict_future_transactions rngRev dfA) = true ∧
    maxD (dfA.map Txn.date) = 5 ∧
    ((okIncome rngId dfA).getD 0 ⟨0, 0, 0⟩).date = 2 ∧
    ((okIncome rngRev dfA).getD 0 ⟨0, 0, 0⟩).date = 2 ∧
    ((okExpenditure rngId dfA).getD 0 ⟨0, 0, 0⟩).date = 6 ∧
    ((okExpenditure rngRev dfA).getD 0 ⟨0, 0, 0⟩).date = 6 ∧
    (2 : Int) ≠ 5 + 1 := by
  decide

/-- Claim C1, amended: on every successful run each forecast sequence starts
the day after the latest date of its own subseries — the income forecast is
anchored at the maximum income date, the expenditure forecast at the maximum
expenditure date (they agree with the overall latest date only when the
respective subseries attains it) — and dates advance one day per row. -/
theorem C1_amended (rng : Nat → List Nat) (df : List Txn)
    (h : exceptOk (predict_future_transactions rng df) = true) :
    ∀ i : Nat, i < 30 →
      ((okIncome rng df).getD i ⟨0, 0, 0⟩).date =
        maxD ((incomeOf df).map Txn.date) + 1 + (i : Int) ∧
      ((okExpenditure rng df).getD i ⟨0, 0, 0⟩).date =
        maxD ((expenditureOf df).map Txn.date) + 1 + (i : Int) := by
  obtain ⟨im, em, h1, h2, hf, hi, he⟩ := predict_ok_parts rng df h
  intro i hilt
  rw [hi, he, make_predictions_getD im _ 30 i hilt, make_predictions_getD em _ 30 i hilt]
  exact ⟨rfl, rfl⟩

/-- Claim C1, witness for the amended theorem at `dfA` with the identity
shuffle. -/
theorem C1_amended_witness :
    exceptOk (predict_future_transactions rngId dfA) = true ∧
    (∀ i : Nat, i < 30 →
      ((okIncome rngId dfA).getD i ⟨0, 0, 0⟩).date =
        maxD ((incomeOf dfA).map Txn.date) + 1 + (i : Int) ∧
      ((okExpenditure rngId dfA).getD i ⟨0, 0, 0⟩).date =
        maxD ((expenditureOf dfA).map Txn.date) + 1 + (i : Int)) :=
  ⟨by decide, C1_amended rngId dfA (by decide)⟩

/-- Claim C2, counterexample: at `dfB` (income on days 3 and 4, expenditure
on days 0 and 1, global epoch day 0) the first projected income row has date
5 but day index 2 = 5 minus the income subseries minimum 3, not 5 = date
minus the global epoch — under either possible two-row shuffle. -/
theorem C2_counterexample :
    exceptOk (predict_future_transactions rngId dfB) = true ∧
    exceptOk (predict_future_transactions rngRev dfB) = true ∧
    minD (dfB.map Txn.date) = 0 ∧
    ((okIncome rngId dfB).getD 0 ⟨0, 0, 0⟩).date = 5 ∧
    ((okIncome rngId dfB).getD 0 ⟨0, 0, 0⟩).days_since_start = 2 ∧
    ((okIncome rngRev dfB).getD 0 ⟨0, 0, 0⟩).date = 5 ∧
    ((okIncome rngRev dfB).getD 0 ⟨0, 0, 0⟩).days_since_start = 2 ∧
    (2 : Int) ≠ 5 - 0 := by
  decide

/-- Claim C2, amended: on every successful run the day index used to
evaluate the fitted line at a projected date is that date minus the minimum
date of the respective subseries (it equals the global epoch value only when
the subseries contains the globally earliest date). -/
theorem C2_amended (rng : Nat → List Nat) (df : List Txn)
    (h : exceptOk (predict_future_transactions rng df) = true) :
    ∀ i : Nat, i < 30 →
      ((okIncome rng df).getD i ⟨0, 0, 0⟩).days_since_start =
        ((okIncome rng df).getD i ⟨0, 0, 0⟩).date - minD ((incomeOf df).map Txn.date) ∧
      ((okExpenditure rng df).getD i ⟨0, 0, 0⟩).days_since_start =
        ((okExpenditure rng df).getD i ⟨0, 0, 0⟩).date -
          minD ((expenditureOf df).map Txn.date) := by
  obtain ⟨im, em, h1, h2, hf, hi, he⟩ := predict_ok_parts rng df h
  intro i hilt
  rw [hi, he, make_predictions_getD im _ 30 i hilt, make_predictions_getD em _ 30 i hilt]
  exact ⟨rfl, rfl⟩

/-- Claim C2, witness for the amended theorem at `dfB` with the identity
shuffle. -/
theorem C2_amended_witness :
    exceptOk (predict_future_transactions rngId dfB) = true ∧
    (∀ i : Nat, i < 30 →
      ((okIncome rngId dfB).getD i ⟨0, 0, 0⟩).days_since_start =
        ((okIncome rngId dfB).getD i ⟨0, 0, 0⟩).date - minD ((incomeOf dfB).map Txn.date) ∧
      ((okExpenditure rngId dfB).getD i ⟨0, 0, 0⟩).days_since_start =
        ((okExpenditure rngId dfB).getD i ⟨0, 0, 0⟩).date -
          minD ((expenditureOf dfB).map Txn.date)) :=
  ⟨by decide, C2_amended rngId dfB (by decide)⟩

/-- Claim C3, code behavior at the failing input: `dfSingleIncome` has
exactly one income record and a valid two-record expenditure subseries, yet
the whole call aborts with the raw library `ValueError` raised while
splitting the income subseries — no `InsufficientDataError` exists anywhere
in the code, and no expenditure forecast is produced — under either possible
shuffle. -/
theorem C3_code_behavior :
    (incomeOf dfSingleIncome).length = 1 ∧
    (expenditureOf dfSingleIncome).length = 2 ∧
    predict_future_transactions rngId dfSingleIncome = .error .valueError ∧
    predict_future_transactions rngRev dfSingleIncome = .error .valueError := by
  decide

/-- Claim C4, counterexample: `predict_future_transactions` is not free of
side effects — at `dfA` the caller's dataframe after the call differs from
the input (the `days_since_start` column has been added in place). -/
theorem C4_counterexample :
    exceptOk (predict_future_transactions rngId dfA) = true ∧
    exceptOk (predict_future_transactions rngRev dfA) = true ∧
    okFrame rngId dfA ≠ dfA ∧
    okFrame rngRev dfA ≠ dfA := by
  decide

/-- Claim C4, amended: the call mutates the caller's dataframe exactly by
the in-place `prepare_data` column assignments — the frame the caller sees
afterwards is the prepared frame, whose date, category and amount values are
unchanged row by row (the expenditure sign flip happens on a copy). -/
theorem C4_amended (rng : Nat → List Nat) (df : List Txn)
    (h : exceptOk (predict_future_transactions rng df) = true) :
    okFrame rng df = prepare_data df ∧
    (okFrame rng df).map stripT = df.map stripT := by
  obtain ⟨im, em, h1, h2, hf, hi, he⟩ := predict_ok_parts rng df h
  exact ⟨hf, by rw [hf, prepare_data_strip]⟩

/-- Claim C4, witness for the amended theorem at `dfA` with the identity
shuffle. -/
theorem C4_amended_witness :
    exceptOk (predict_future_transactions rngId dfA) = true ∧
    (okFrame rngId dfA = prepare_data dfA ∧
      (okFrame rngId dfA).map stripT = dfA.map stripT) :=
  ⟨by decide, C4_amended rngId dfA (by decide)⟩

/-- Claim C5: on every successful run both forecast sequences have exactly
30 rows and consecutive rows are exactly one calendar day apart, so the
dates are strictly increasing with one-day spacing and no gaps. -/
theorem C5_forecast_shape (rng : Nat → List Nat) (df : List Txn)
    (h : exceptOk (predict_future_transactions rng df) = true) :
    (okIncome rng df).length = 30 ∧
    (okExpenditure rng df).length = 30 ∧
    (∀ i : Nat, i + 1 < 30 →
      ((okIncome rng df).getD (i + 1) ⟨0, 0, 0⟩).date =
        ((okIncome rng df).getD i ⟨0, 0, 0⟩).date + 1 ∧
      ((okExpenditure rng df).getD (i + 1) ⟨0, 0, 0⟩).date =
        ((okExpenditure rng df).getD i ⟨0, 0, 0⟩).date + 1) := by
  obtain ⟨im, em, h1, h2, hf, hi, he⟩ := predict_ok_parts rng df h
  refine ⟨by rw [hi, make_predictions_length], by rw [he, make_predictions_length], ?_⟩
  intro i hilt
  have hi1 : i < 30 := Nat.lt_of_succ_lt hilt
  rw [hi, he, make_predictions_getD im _ 30 _ hilt, make_predictions_getD im _ 30 _ hi1,
    make_predictions_getD em _ 30 _ hilt, make_predictions_getD em _ 30 _ hi1]
  constructor
  · show maxD _ + 1 + ((i + 1 : Nat) : Int) = maxD _ + 1 + (i : Int) + 1
    push_cast
    ring
  · show maxD _ + 1 + ((i + 1 : Nat) : Int) = maxD _ + 1 + (i : Int) + 1
    push_cast
    ring

/-- Claim C5, witness at `dfA` with the identity shuffle. -/
theorem C5_forecast_shape_witness :
    exceptOk (predict_future_transactions rngId dfA) = true ∧
    ((okIncome rngId dfA).length = 30 ∧
      (okExpenditure rngId dfA).length = 30 ∧
      (∀ i : Nat, i + 1 < 30 →
        ((okIncome rngId dfA).getD (i + 1) ⟨0, 0, 0⟩).date =
          ((okIncome rngId dfA).getD i ⟨0, 0, 0⟩).date + 1 ∧
        ((okExpenditure rngId dfA).getD (i + 1) ⟨0, 0, 0⟩).date =
          ((okExpenditure rngId dfA).getD i ⟨0, 0, 0⟩).date + 1)) :=
  ⟨by decide, C5_forecast_shape rngId dfA (by decide)⟩

/-- Claim C6: the income subseries is exactly the records with positive
amount, amounts unchanged; the expenditure subseries is exactly the records
with negative amount, each amount replaced by its absolute value; and no
record of either subseries has amount zero, so zero-amount records appear in
neither. -/
theorem C6_partitioning (df : List Txn) :
    (incomeOf df).map stripT = (df.filter fun r => decide (0 < r.amount)).map stripT ∧
    (expenditureOf df).map stripT =
      (df.filter fun r => decide (r.amount < 0)).map (fun r => (r.date, r.category, |r.amount|)) ∧
    ∀ s : Txn, (s ∈ incomeOf df ∨ s ∈ expenditureOf df) → s.amount ≠ 0 := by
  have h1 : incomeOf df =
      (df.filter fun r => decide (0 < r.amount)).map
        (fun r => { r with days_since_start := some (r.date - minD (df.map Txn.date)) }) := by
    unfold incomeOf prepare_data
    rw [filter_map_swap]
  have h2 : expenditureOf df =
      ((df.filter fun r => decide (r.amount < 0)).map
        (fun r => { r with days_since_start := some (r.date - minD (df.map Txn.date)) })).map
        (fun r => { r with amount := |r.amount| }) := by
    unfold expenditureOf prepare_data
    rw [filter_map_swap]
  refine ⟨?_, ?_, ?_⟩
  · rw [h1, List.map_map]
    rfl
  · rw [h2, List.map_map, List.map_map]
    rfl
  · intro s hs
    cases hs with
    | inl hmem =>
      unfold incomeOf at hmem
      have hpos : 0 < s.amount := of_decide_eq_true (List.mem_filter.mp hmem).2
      exact ne_of_gt hpos
    | inr hmem =>
      unfold expenditureOf at hmem
      obtain ⟨t, ht, rfl⟩ := List.mem_map.mp hmem
      have hneg : t.amount < 0 := of_decide_eq_true (List.mem_filter.mp ht).2
      show |t.amount| ≠ 0
      rw [abs_ne_zero]
      exact ne_of_lt hneg

/-- Claim C6, witness: the partitioning facts instantiated at `dfA`, with
the zero-exclusion applied to the concrete first income row. -/
theorem C6_partitioning_witness :
    (incomeOf dfA).map stripT = (dfA.filter fun r => decide (0 < r.amount)).map stripT ∧
    (expenditureOf dfA).map stripT =
      (dfA.filter fun r => decide (r.amount < 0)).map (fun r => (r.date, r.category, |r.amount|)) ∧
    (⟨0, "a", 50, some 0⟩ : Txn) ∈ incomeOf dfA ∧
    (⟨0, "a", 50, some 0⟩ : Txn).amount ≠ 0 :=
  ⟨(C6_partitioning dfA).1, (C6_partitioning dfA).2.1, by decide,
    (C6_partitioning dfA).2.2 ⟨0, "a", 50, some 0⟩ (Or.inl (by decide))⟩

/-- Claim C7: feature derivation uses the global epoch — every prepared row
carries `days_since_start = date - min(date over the whole frame)`, computed
before partitioning, so both subseries share the epoch; in particular, when
some expenditure record predates every income record strictly, every income
row's day index is strictly positive. -/
theorem C7_epoch (df : List Txn) :
    (∀ r ∈ prepare_data df, r.days_since_start = some (r.date - minD (df.map Txn.date))) ∧
    ((∃ e ∈ df, e.amount < 0 ∧ ∀ r ∈ df, 0 < r.amount → e.date < r.date) →
      ∀ s ∈ incomeOf df, 0 < s.days_since_start.getD 0) := by
  refine ⟨prepare_data_dss df, ?_⟩
  rintro ⟨e, he, _, hlt⟩ s hs
  unfold incomeOf at hs
  have hmem := (List.mem_filter.mp hs).1
  have hpos : 0 < s.amount := of_decide_eq_true (List.mem_filter.mp hs).2
  simp only [prepare_data, List.mem_map] at hmem
  obtain ⟨r0, hr0, rfl⟩ := hmem
  show 0 < r0.date - minD (df.map Txn.date)
  have hmin : minD (df.map Txn.date) ≤ e.date :=
    minD_le_of_mem (List.mem_map_of_mem Txn.date he)
  have hdate : e.date < r0.date := hlt r0 hr0 hpos
  omega

/-- Claim C7, witness at `dfEpoch`: expenditure on day 0, income only on
days 2 and 3, so every income day index is strictly positive. -/
theorem C7_epoch_witness :
    (∀ r ∈ prepare_data dfEpoch, r.days_since_start = some (r.date - minD (dfEpoch.map Txn.date))) ∧
    (∃ e ∈ dfEpoch, e.amount < 0 ∧ ∀ r ∈ dfEpoch, 0 < r.amount → e.date < r.date) ∧
    (∀ s ∈ incomeOf dfEpoch, 0 < s.days_since_start.getD 0) :=
  ⟨(C7_epoch dfEpoch).1, by decide, (C7_epoch dfEpoch).2 (by decide)⟩

/-- Claim C9: determinism and idempotence — with the same fixed-seed shuffle,
a second invocation, which receives the dataframe exactly as the first
invocation left it (prepared in place), returns the identical result, error
or forecasts alike; the pipeline is a function of the data and the shuffle
alone. -/
theorem C9_idempotent (rng : Nat → List Nat) (df : List Txn) :
    predict_future_transactions rng (prepare_data df) = predict_future_transactions rng df := by
  have hinc : incomeOf (prepare_data df) = incomeOf df := by
    unfold incomeOf
    rw [prepare_data_idem]
  have hexp : expenditureOf (prepare_data df) = expenditureOf df := by
    unfold expenditureOf
    rw [prepare_data_idem]
  unfold predict_future_transactions
  rw [hinc, hexp, prepare_data_idem]

/-- Claim C10: within each returned forecast sequence the predicted amounts
form an arithmetic progression — consecutive predictions differ by exactly
the slope of the model fitted for that subseries, because successive rows
evaluate the same affine function at day indices one apart. -/
theorem C10_arithmetic_progression (rng : Nat → List Nat) (df : List Txn)
    (h : exceptOk (predict_future_transactions rng df) = true) :
    ∀ i : Nat, i + 1 < 30 →
      ((okIncome rng df).getD (i + 1) ⟨0, 0, 0⟩).prediction -
          ((okIncome rng df).getD i ⟨0, 0, 0⟩).prediction =
        coefOf (train_model rng (incomeOf df) (fun r => r.amount)) ∧
      ((okExpenditure rng df).getD (i + 1) ⟨0, 0, 0⟩).prediction -
          ((okExpenditure rng df).getD i ⟨0, 0, 0⟩).prediction =
        coefOf (train_model rng (expenditureOf df) (fun r => r.amount)) := by
  obtain ⟨im, em, h1, h2, hf, hi, he⟩ := predict_ok_parts rng df h
  intro i hilt
  have hi1 : i < 30 := Nat.lt_of_succ_lt hilt
  rw [hi, he, h1, h2, make_predictions_getD im _ 30 _ hilt, make_predictions_getD im _ 30 _ hi1,
    make_predictions_getD em _ 30 _ hilt, make_predictions_getD em _ 30 _ hi1]
  constructor
  · show im.coef * ((maxD _ + 1 + ((i + 1 : Nat) : Int) - minD _ : Int) : ℚ) + im.intercept -
      (im.coef * ((maxD _ + 1 + (i : Int) - minD _ : Int) : ℚ) + im.intercept) = coefOf (.ok im)
    show _ = im.coef
    push_cast
    ring
  · show em.coef * ((maxD _ + 1 + ((i + 1 : Nat) : Int) - minD _ : Int) : ℚ) + em.intercept -
      (em.coef * ((maxD _ + 1 + (i : Int) - minD _ : Int) : ℚ) + em.intercept) = coefOf (.ok em)
    show _ = em.coef
    push_cast
    ring

/-- Claim C10, witness at `dfA` with the identity shuffle. -/
theorem C10_arithmetic_progression_witness :
    exceptOk (predict_future_transactions rngId dfA) = true ∧
    (∀ i : Nat, i + 1 < 30 →
      ((okIncome rngId dfA).getD (i + 1) ⟨0, 0, 0⟩).prediction -
          ((okIncome rngId dfA).getD i ⟨0, 0, 0⟩).prediction =
        coefOf (train_model rngId (incomeOf dfA) (fun r => r.amount)) ∧
      ((okExpenditure rngId dfA).getD (i + 1) ⟨0, 0, 0⟩).prediction -
          ((okExpenditure rngId dfA).getD i ⟨0, 0, 0⟩).prediction =
        coefOf (train_model rngId (expenditureOf dfA) (fun r => r.amount))) :=
  ⟨by decide, C10_arithmetic_progression rngId dfA (by decide)⟩

/-- Sum of an affine image: `Σ (a*x + b)` over a list is `a * Σx + b * n`. -/
theorem sum_map_affine (a b : ℚ) (xs : List ℚ) :
    (xs.map fun x => a * x + b).sum = a * xs.sum + b * (xs.length : ℚ) := by
  induction xs with
  | nil => simp
  | cons x t ih =>
    simp only [List.map_cons, List.sum_cons, ih, List.length_cons]
    push_cast
    ring

/-- Sum of products of a list with its own affine image. -/
theorem sum_zipWith_affine (a b : ℚ) (xs : List ℚ) :
    (List.zipWith (fun x y => x * y) xs (xs.map fun x => a * x + b)).sum =
      a * (xs.map fun x => x * x).sum + b * xs.sum := by
  induction xs with
  | nil => simp
  | cons x t ih =>
    simp only [List.map_cons, List.zipWith_cons_cons, List.sum_cons, ih]
    ring

/-- Sum of squared deviations from a constant, expanded. -/
theorem sum_map_sq_sub (c : ℚ) (xs : List ℚ) :
    (xs.map fun x => (x - c) * (x - c)).sum =
      (xs.map fun x => x * x).sum - 2 * c * xs.sum + c * c * (xs.length : ℚ) := by
  induction xs with
  | nil => simp
  | cons x t ih =>
    simp only [List.map_cons, List.sum_cons, ih, List.length_cons]
    push_cast
    ring

/-- The least-squares denominator `n * Σx² - (Σx)²` is positive as soon as
the feature takes two different values. -/
theorem denom_pos {xs : List ℚ} {x y : ℚ} (hx : x ∈ xs) (hy : y ∈ xs) (hxy : x ≠ y) :
    0 < (xs.length : ℚ) * (xs.map fun t => t * t).sum - xs.sum * xs.sum := by
  have hn0 : 0 < (xs.length : ℚ) := by
    exact_mod_cast List.length_pos.mpr (List.ne_nil_of_mem hx)
  have hw : ∃ w ∈ xs, w ≠ xs.sum / (xs.length : ℚ) := by
    by_cases hx' : x = xs.sum / (xs.length : ℚ)
    · exact ⟨y, hy, fun hy' => hxy (hx'.trans hy'.symm)⟩
    · exact ⟨x, hx, hx'⟩
  obtain ⟨w, hwmem, hwne⟩ := hw
  have hterm : 0 < (w - xs.sum / (xs.length : ℚ)) * (w - xs.sum / (xs.length : ℚ)) :=
    mul_self_pos.mpr (sub_ne_zero.mpr hwne)
  have hsum : 0 < (xs.map fun t =>
      (t - xs.sum / (xs.length : ℚ)) * (t - xs.sum / (xs.length : ℚ))).sum := by
    refine lt_of_lt_of_le hterm (List.single_le_sum ?_ _ (List.mem_map_of_mem _ hwmem))
    intro u hu
    obtain ⟨v, _, rfl⟩ := List.mem_map.mp hu
    exact mul_self_nonneg _
  have hiden : (xs.map fun t =>
      (t - xs.sum / (xs.length : ℚ)) * (t - xs.sum / (xs.length : ℚ))).sum =
      (xs.map fun t => t * t).sum - xs.sum * xs.sum / (xs.length : ℚ) := by
    rw [sum_map_sq_sub]
    field_simp
    ring
  rw [hiden] at hsum
  have := mul_pos hn0 hsum
  calc (0 : ℚ) < (xs.length : ℚ) *
        ((xs.map fun t => t * t).sum - xs.sum * xs.sum / (xs.length : ℚ)) := this
    _ = (xs.length : ℚ) * (xs.map fun t => t * t).sum - xs.sum * xs.sum := by
        field_simp
        ring

/-- Ordinary least squares recovers an exact affine relationship: when the
responses lie exactly on `a * x + b` and the feature takes two distinct
values, `fit` returns slope `a` and intercept `b` exactly. -/
theorem fit_exact (a b : ℚ) (xs : List ℚ) {x y : ℚ}
    (hx : x ∈ xs) (hy : y ∈ xs) (hxy : x ≠ y) :
    fit xs (xs.map fun t => a * t + b) = ⟨a, b⟩ := by
  have hd := denom_pos hx hy hxy
  have hd0 : (xs.length : ℚ) * (xs.map fun t => t * t).sum - xs.sum * xs.sum ≠ 0 :=
    ne_of_gt hd
  have hn0 : (xs.length : ℚ) ≠ 0 := by
    have : 0 < (xs.length : ℚ) := by
      exact_mod_cast List.length_pos.mpr (List.ne_nil_of_mem hx)
    exact ne_of_gt this
  simp only [fit, sum_map_affine, sum_zipWith_affine, List.length_map]
  rw [if_neg hd0]
  have hq : ((xs.length : ℚ) * (a * (xs.map fun t => t * t).sum + b * xs.sum) -
      xs.sum * (a * xs.sum + b * (xs.length : ℚ))) /
      ((xs.length : ℚ) * (xs.map fun t => t * t).sum - xs.sum * xs.sum) = a := by
    rw [show ((xs.length : ℚ) * (a * (xs.map fun t => t * t).sum + b * xs.sum) -
        xs.sum * (a * xs.sum + b * (xs.length : ℚ))) =
        a * ((xs.length : ℚ) * (xs.map fun t => t * t).sum - xs.sum * xs.sum) from by ring]
    field_simp
  rw [hq]
  rw [Model.mk.injEq]
  refine ⟨rfl, ?_⟩
  field_simp

/-- Claim C8: on a synthetic series lying exactly on
`amount = 2 * days_since_start + 10`, whenever the training split (under the
library's shuffle, any permutation of the indices) retains at least two
distinct day-index values, the fitted model has slope exactly 2 and
intercept exactly 10 — in particular within tolerance `1e-6` — and every
projected prediction is the exact line value at its projected day index. -/
theorem C8_linear_fit (df : List Txn) (rng : Nat → List Nat)
    (hperm : (rng (prepare_data df).length).Perm (List.range (prepare_data df).length))
    (hlin : ∀ r ∈ df, r.amount = 2 * ((r.date - minD (df.map Txn.date) : Int) : ℚ) + 10)
    (hdist : ∃ r ∈ train_rows rng (prepare_data df), ∃ s ∈ train_rows rng (prepare_data df),
      r.days_since_start ≠ s.days_since_start) :
    ∃ m : Model,
      train_model rng (prepare_data df) (fun r => r.amount) = .ok m ∧
      m.coef = 2 ∧ m.intercept = 10 ∧
      |m.coef - 2| ≤ 1 / 1000000 ∧ |m.intercept - 10| ≤ 1 / 1000000 ∧
      ∀ p ∈ make_predictions m (prepare_data df) 30,
        p.prediction = 2 * (p.days_since_start : ℚ) + 10 := by
  obtain ⟨r, hr, s, hs, hrs⟩ := hdist
  have hsub : ∀ u ∈ train_rows rng (prepare_data df), u ∈ prepare_data df := by
    intro u hu
    unfold train_rows at hu
    obtain ⟨i, _, hg⟩ := List.mem_filterMap.mp hu
    exact List.get?_mem hg
  have hdss : ∀ u ∈ prepare_data df,
      dssQ u = ((u.date - minD (df.map Txn.date) : Int) : ℚ) := by
    intro u hu
    unfold dssQ
    rw [prepare_data_dss df u hu]
    rfl
  have hamount : ∀ u ∈ prepare_data df, u.amount = 2 * dssQ u + 10 := by
    intro u hu
    rw [hdss u hu]
    simp only [prepare_data, List.mem_map] at hu
    obtain ⟨r0, hr0, rfl⟩ := hu
    exact hlin r0 hr0
  have hmapy : (train_rows rng (prepare_data df)).map (fun u => u.amount) =
      ((train_rows rng (prepare_data df)).map dssQ).map (fun t => 2 * t + 10) := by
    rw [List.map_map]
    exact List.map_congr_left fun u hu => hamount u (hsub u hu)
  have hxmem : dssQ r ∈ (train_rows rng (prepare_data df)).map dssQ :=
    List.mem_map_of_mem _ hr
  have hymem : dssQ s ∈ (train_rows rng (prepare_data df)).map dssQ :=
    List.mem_map_of_mem _ hs
  have hxy : dssQ r ≠ dssQ s := by
    intro hEq
    apply hrs
    have hdr := prepare_data_dss df r (hsub r hr)
    have hds := prepare_data_dss df s (hsub s hs)
    rw [hdr, hds]
    have hcast : ((r.date - minD (df.map Txn.date) : Int) : ℚ) =
        ((s.date - minD (df.map Txn.date) : Int) : ℚ) := by
      rw [← hdss r (hsub r hr), ← hdss s (hsub s hs)]
      exact hEq
    have h2 : (r.date - minD (df.map Txn.date) : Int) =
        (s.date - minD (df.map Txn.date) : Int) := by
      exact_mod_cast hcast
    rw [h2]
  have hne : train_rows rng (prepare_data df) ≠ [] := List.ne_nil_of_mem hr
  have hlen : (rng (prepare_data df).length).length = (prepare_data df).length := by
    rw [hperm.length_eq, List.length_range]
  have hdropne :
      (rng (prepare_data df).length).drop (test_count (prepare_data df).length) ≠ [] := by
    intro h0
    apply hne
    unfold train_rows
    rw [h0]
    rfl
  have htlt : test_count (prepare_data df).length < (prepare_data df).length := by
    by_contra hge
    push_neg at hge
    apply hdropne
    rw [List.drop_eq_nil_iff, hlen]
    exact hge
  have hcond : ¬((prepare_data df).length - test_count (prepare_data df).length = 0 ∨
      test_count (prepare_data df).length = 0) := by
    unfold test_count at htlt ⊢
    omega
  refine ⟨⟨2, 10⟩, ?_, rfl, rfl, by norm_num, by norm_num, ?_⟩
  · unfold train_model
    rw [if_neg hcond, hmapy]
    exact congrArg Except.ok (fit_exact 2 10 _ hxmem hymem hxy)
  · intro p hp
    unfold make_predictions at hp
    obtain ⟨i, _, rfl⟩ := List.mem_map.mp hp
    rfl

/-- Claim C8, witness at `dfLinear` (five days exactly on the line) with the
identity shuffle, whose training part keeps days 1 to 4. -/
theorem C8_linear_fit_witness :
    (rngId (prepare_data dfLinear).length).Perm (List.range (prepare_data dfLinear).length) ∧
    (∀ r ∈ dfLinear, r.amount = 2 * ((r.date - minD (dfLinear.map Txn.date) : Int) : ℚ) + 10) ∧
    (∃ r ∈ train_rows rngId (prepare_data dfLinear),
      ∃ s ∈ train_rows rngId (prepare_data dfLinear),
        r.days_since_start ≠ s.days_since_start) ∧
    (∃ m : Model,
      train_model rngId (prepare_data dfLinear) (fun r => r.amount) = .ok m ∧
      m.coef = 2 ∧ m.intercept = 10 ∧
      |m.coef - 2| ≤ 1 / 1000000 ∧ |m.intercept - 10| ≤ 1 / 1000000 ∧
      ∀ p ∈ make_predictions m (prepare_data dfLinear) 30,
        p.prediction = 2 * (p.days_since_start : ℚ) + 10) := by
  have hlin : ∀ r ∈ dfLinear,
      r.amount = 2 * ((r.date - minD (dfLinear.map Txn.date) : Int) : ℚ) + 10 := by
    norm_num [dfLinear, minD, List.min?, List.foldl, List.forall_mem_cons]
  exact ⟨by decide, hlin, by decide,
    C8_linear_fit dfLinear rngId (by decide) hlin (by decide)⟩

